import Mathlib

/-!
Verification of the agent0-ts multi-backend storage layer.

Shallow embedding of the TypeScript sources:
  src/core/arweave-client.ts   (ArweaveClient.add / addRegistrationFile / get)
  src/utils/arweave-tags.ts    (generateArweaveRegistrationTags,
                                generateArweaveFeedbackTags, generateEssentialTags)
  src/utils/registration-format.ts (formatRegistrationFileForStorage)
  src/utils/constants.ts       (SDK_VERSION, ARWEAVE_GATEWAYS)

JavaScript values are modelled explicitly: optional fields are Option,
JavaScript truthiness is spelled out per type, NaN is the value none of
an Option Int, and field/tag lists keep the insertion order the source
produces.  The single wall-clock input new Date().toISOString() is passed
in as an explicit string argument named now.
-/

namespace Agent0

/-- JavaScript truthiness of an optional string: undefined and "" are falsy. -/
def jsTruthyStr : Option String → Bool
  | some s => s != ""
  | none => false

/-- JavaScript truthiness of an optional number: undefined and 0 are falsy. -/
def jsTruthyNat : Option Nat → Bool
  | some n => n != 0
  | none => false

/-- JavaScript Boolean.prototype.toString, used by the tag generators. -/
def boolToString (b : Bool) : String := if b then "true" else "false"

/-- JavaScript String.prototype.includes, substring containment. -/
def strIncludes (s sub : String) : Bool := decide (sub.data <:+: s.data)

/-- JavaScript String.prototype.startsWith, modelled over the character list. -/
def strStartsWith (s pre : String) : Bool := pre.data.isPrefixOf s.data

/-- JavaScript String.prototype.trim, modelled over the character list. -/
def jsTrim (s : String) : String :=
  String.mk (((s.data.dropWhile Char.isWhitespace).reverse.dropWhile Char.isWhitespace).reverse)

/-- JavaScript String.prototype.split with a one-character separator:
accumulates the current field and starts a new one at each separator. -/
def splitCharList (sep : Char) : List Char → List Char → List String
  | [], acc => [String.mk acc.reverse]
  | c :: cs, acc =>
    if c = sep then String.mk acc.reverse :: splitCharList sep cs []
    else splitCharList sep cs (c :: acc)

/-- JavaScript s.split(sep) for a one-character separator. -/
def jsSplit (s : String) (sep : Char) : List String := splitCharList sep s.data []

/-- JavaScript parseInt with radix 10.  The input none models undefined,
which stringifies to "undefined" and parses to NaN; the output none models
NaN.  Leading whitespace is skipped, an optional sign is read, then the
longest leading digit run; no digits means NaN. -/
def jsParseInt (s? : Option String) : Option Int :=
  match s? with
  | none => none
  | some s =>
    let cs := s.data.dropWhile Char.isWhitespace
    let signAndRest : Int × List Char :=
      match cs with
      | '-' :: rest => (-1, rest)
      | '+' :: rest => (1, rest)
      | _ => (1, cs)
    let digits := signAndRest.2.takeWhile Char.isDigit
    if digits.isEmpty then none
    else
      let n : Nat := digits.foldl (fun acc c => acc * 10 + (c.toNat - 48)) 0
      some (signAndRest.1 * (n : Int))

/-- A JSON-like value, the image of a JavaScript object field.
num none models the JavaScript NaN number. -/
inductive JVal where
  | str : String → JVal
  | num : Option Int → JVal
  | bool : Bool → JVal
  | arr : List JVal → JVal
  | obj : List (String × JVal) → JVal

/-- JavaScript Object.assign onto an ordered field list: an existing key is
overwritten in place keeping its position, a new key is appended in
insertion order. -/
def objAssign (base extra : List (String × JVal)) : List (String × JVal) :=
  extra.foldl
    (fun acc kv =>
      if acc.any (fun p => p.1 == kv.1) then
        acc.map (fun p => if p.1 == kv.1 then (p.1, kv.2) else p)
      else acc ++ [kv])
    base

/-- src/models/enums.ts: protocol type of an endpoint. -/
inductive EndpointType
  | MCP
  | A2A
  | ENS
deriving DecidableEq

/-- The string value the endpoint protocol-type enum carries. -/
def EndpointType.label : EndpointType → String
  | .MCP => "MCP"
  | .A2A => "A2A"
  | .ENS => "ENS"

/-- src/models/interfaces.ts: an endpoint of a registration file. -/
structure Endpoint where
  type : EndpointType
  value : String
  meta : Option (List (String × JVal))

/-- src/models/interfaces.ts: the RegistrationFile domain record.  Optional
fields are Option; fields the storage layer never reads (owners, operators,
metadata map, updatedAt) are kept for completeness. -/
structure RegistrationFile where
  agentId : Option String
  name : String
  description : String
  image : Option String
  endpoints : List Endpoint
  trustModels : List String
  owners : List String
  operators : List String
  active : Bool
  x402support : Bool
  walletAddress : Option String
  walletChainId : Option Nat
  metadataKeys : List (String × String)
  updatedAt : Nat

/-- src/utils/constants.ts: SDK_VERSION. -/
def SDK_VERSION : String := "0.2.1"

/-- src/utils/constants.ts: ARWEAVE_GATEWAYS, the configured ordered
gateway list. -/
def ARWEAVE_GATEWAYS : List String :=
  ["https://arweave.net",
   "https://turbo-gateway.com",
   "https://ario-gateway.nethermind.dev",
   "https://ar-io-gateway.svc.blacksand.xyz"]

/-- src/utils/registration-format.ts: the per-endpoint dictionary of the
endpoint transformation loop: the object with name and endpoint fields
merged with the meta map of the endpoint via Object.assign. -/
def endpointDicts (registrationFile : RegistrationFile) : List (List (String × JVal)) :=
  registrationFile.endpoints.map (fun ep =>
    objAssign [("name", JVal.str ep.type.label), ("endpoint", JVal.str ep.value)]
      (ep.meta.getD []))

/-- src/utils/registration-format.ts: the synthesized agentWallet endpoint
dictionary. -/
def agentWalletDict (chainId : Nat) (address : String) : List (String × JVal) :=
  [("name", JVal.str "agentWallet"),
   ("endpoint", JVal.str ("eip155:" ++ toString chainId ++ ":" ++ address))]

/-- src/utils/registration-format.ts: the local endpoints array of
formatRegistrationFileForStorage.  If the wallet address is truthy a
synthesized agentWallet endpoint is appended, whose chain id is
walletChainId when truthy, else the chainId argument when truthy, else 1
(JavaScript a or-else b or-else 1 over numbers, where 0 is falsy). -/
def erc8004Endpoints (registrationFile : RegistrationFile) (chainId : Option Nat) :
    List (List (String × JVal)) :=
  let endpoints := endpointDicts registrationFile
  if jsTruthyStr registrationFile.walletAddress then
    let walletChainId :=
      if jsTruthyNat registrationFile.walletChainId then registrationFile.walletChainId.getD 0
      else if jsTruthyNat chainId then chainId.getD 0
      else 1
    endpoints ++ [agentWalletDict walletChainId (registrationFile.walletAddress.getD "")]
  else endpoints

/-- src/utils/registration-format.ts: the local registrations array.
When the agent identifier is truthy, the third colon-separated field of the
identifier is parsed with parseInt (radix 10) as the numeric agent id, and
the registry reference is synthesized from the chain context when both
chainId and the registry address are truthy, else a placeholder. -/
def erc8004Registrations (registrationFile : RegistrationFile) (chainId : Option Nat)
    (identityRegistryAddress : Option String) : List JVal :=
  if jsTruthyStr registrationFile.agentId then
    let tokenId := (jsSplit (registrationFile.agentId.getD "") ':').get? 2
    let agentRegistry :=
      if jsTruthyNat chainId && jsTruthyStr identityRegistryAddress then
        "eip155:" ++ toString (chainId.getD 0) ++ ":" ++ identityRegistryAddress.getD ""
      else "eip155:1:\x7bidentityRegistry\x7d"
    [JVal.obj [("agentId", JVal.num (jsParseInt tokenId)),
               ("agentRegistry", JVal.str agentRegistry)]]
  else []

/-- src/utils/registration-format.ts: formatRegistrationFileForStorage.
Emits the ERC-8004 document as an ordered field list: type, name,
description, image only when truthy, the endpoints array, registrations
only when non-empty, supportedTrusts only when the trust-model list is
non-empty, then active and x402support. -/
def formatRegistrationFileForStorage (registrationFile : RegistrationFile)
    (chainId : Option Nat) (identityRegistryAddress : Option String) :
    List (String × JVal) :=
  let endpoints := erc8004Endpoints registrationFile chainId
  let registrations := erc8004Registrations registrationFile chainId identityRegistryAddress
  [("type", JVal.str "https://eips.ethereum.org/EIPS/eip-8004#registration-v1"),
   ("name", JVal.str registrationFile.name),
   ("description", JVal.str registrationFile.description)]
  ++ (if jsTruthyStr registrationFile.image then
        [("image", JVal.str (registrationFile.image.getD ""))] else [])
  ++ [("endpoints", JVal.arr (endpoints.map JVal.obj))]
  ++ (if registrations.length > 0 then [("registrations", JVal.arr registrations)] else [])
  ++ (if registrationFile.trustModels.length > 0 then
        [("supportedTrusts", JVal.arr (registrationFile.trustModels.map JVal.str))] else [])
  ++ [("active", JVal.bool registrationFile.active),
      ("x402support", JVal.bool registrationFile.x402support)]

/-- src/utils/arweave-tags.ts: generateArweaveRegistrationTags.  The now
argument is the value of new Date().toISOString() at the call. -/
def generateArweaveRegistrationTags (registrationFile : RegistrationFile)
    (chainId : Nat) (now : String) : List (String × String) :=
  let tags := [("Content-Type", "application/json"),
    ("App-Name", "Agent0-v" ++ SDK_VERSION),
    ("Protocol", "ERC-8004"),
    ("Data-Type", "agent-registration"),
    ("Chain-Id", toString chainId),
    ("Schema-Version", "1.0")]
  let tags := tags ++
    (if jsTruthyStr registrationFile.agentId then
      [("Agent-Id", registrationFile.agentId.getD "")] else [])
  let hasMCP := registrationFile.endpoints.any (fun ep => ep.type == EndpointType.MCP)
  let hasA2A := registrationFile.endpoints.any (fun ep => ep.type == EndpointType.A2A)
  let hasWallet := jsTruthyStr registrationFile.walletAddress
  let tags := tags ++
    [("Has-MCP", boolToString hasMCP),
     ("Has-A2A", boolToString hasA2A),
     ("Has-Wallet", boolToString hasWallet),
     ("Active", boolToString registrationFile.active)]
  tags ++ [("Timestamp", now)]

/-- src/utils/arweave-tags.ts: the feedback file fields the tag generator
inspects.  score is some n exactly when the JavaScript field holds a number
(integral in this model); each string slot is some s exactly when the field
holds a string. -/
structure FeedbackFile where
  score : Option Int
  tag1 : Option String
  tag2 : Option String
  capability : Option String
  skill : Option String

/-- src/utils/arweave-tags.ts: generateArweaveFeedbackTags.  Score is pushed
whenever the score field is a number; Tag1, Tag2, Capability and Skill
whenever the field is a string and truthy (non-empty); Timestamp is pushed
last. -/
def generateArweaveFeedbackTags (feedbackFile : FeedbackFile) (chainId : Nat)
    (agentId : Option String) (clientAddress : Option String) (now : String) :
    List (String × String) :=
  let tags := [("Content-Type", "application/json"),
    ("App-Name", "Agent0-v" ++ SDK_VERSION),
    ("Protocol", "ERC-8004"),
    ("Data-Type", "agent-feedback"),
    ("Chain-Id", toString chainId),
    ("Schema-Version", "1.0")]
  let tags := tags ++ (if jsTruthyStr agentId then [("Agent-Id", agentId.getD "")] else [])
  let tags := tags ++
    (if jsTruthyStr clientAddress then [("Reviewer", clientAddress.getD "")] else [])
  let tags := tags ++
    (match feedbackFile.score with
     | some n => [("Score", toString n)]
     | none => [])
  let tags := tags ++
    (if jsTruthyStr feedbackFile.tag1 then [("Tag1", feedbackFile.tag1.getD "")] else [])
  let tags := tags ++
    (if jsTruthyStr feedbackFile.tag2 then [("Tag2", feedbackFile.tag2.getD "")] else [])
  let tags := tags ++
    (if jsTruthyStr feedbackFile.capability then
      [("Capability", feedbackFile.capability.getD "")] else [])
  let tags := tags ++
    (if jsTruthyStr feedbackFile.skill then [("Skill", feedbackFile.skill.getD "")] else [])
  tags ++ [("Timestamp", now)]

/-- src/utils/arweave-tags.ts: generateEssentialTags. -/
def generateEssentialTags : List (String × String) :=
  [("Content-Type", "application/json"),
   ("App-Name", "Agent0-v" ++ SDK_VERSION),
   ("Protocol", "ERC-8004")]

/-- src/core/arweave-client.ts, get: strip the ar scheme when present
(txId.slice 5 after txId.startsWith check). -/
def stripArScheme (txId : String) : String :=
  if strStartsWith txId "ar://" then String.mk (txId.data.drop 5) else txId

/-- src/core/arweave-client.ts, get: the fetched URL list, one per
configured gateway, in the configured order. -/
def arweaveUrls (txId : String) : List String :=
  ARWEAVE_GATEWAYS.map (fun gateway => gateway ++ "/" ++ txId)

instance {ε α : Type} [DecidableEq ε] [DecidableEq α] : DecidableEq (Except ε α) := fun a b =>
  match a, b with
  | Except.ok x, Except.ok y =>
    if h : x = y then isTrue (by rw [h]) else isFalse (by intro he; injection he; contradiction)
  | Except.ok _, Except.error _ => isFalse (fun h => Except.noConfusion h)
  | Except.error _, Except.ok _ => isFalse (fun h => Except.noConfusion h)
  | Except.error x, Except.error y =>
    if h : x = y then isTrue (by rw [h]) else isFalse (by intro he; injection he; contradiction)

/-- The settled outcome of one gateway fetch: its completion time and its
result (fulfilled payload or rejection reason).  Promise.allSettled keeps
the input order, so outcome lists below are in gateway-list order no matter
the completion times. -/
structure Settled where
  time : Nat
  result : Except String String
deriving DecidableEq

/-- src/core/arweave-client.ts: ArweaveClient.get.  fetch models the
per-gateway HTTP request (non-ok statuses and timeouts are rejections).
The first component is the value returned or the error thrown; the second
component records the URLs actually fetched, so an early rejection shows as
an empty fetch trace. -/
def arweaveGet (txId0 : String) (fetch : String → Settled) :
    Except String String × List String :=
  let txId := stripArScheme txId0
  if txId = "" ∨ jsTrim txId = "" then
    (Except.error "Invalid transaction ID: empty or undefined", [])
  else
    let gateways := arweaveUrls txId
    let results := gateways.map fetch
    match results.findSome? (fun r => r.result.toOption) with
    | some v => (Except.ok v, gateways)
    | none =>
      (Except.error
        ("Failed to retrieve data from all Arweave gateways. Transaction ID: " ++ txId),
       gateways)

/-- src/core/arweave-client.ts, add: the catch block checks the underlying
message for the quota keywords. -/
def isQuotaFailure (errMsg : String) : Bool :=
  strIncludes errMsg "credit" || strIncludes errMsg "balance" ||
    strIncludes errMsg "insufficient"

/-- src/core/arweave-client.ts, add: the message of the error re-thrown by
the catch block. -/
def arweaveAddErrorMessage (errMsg : String) : String :=
  if isQuotaFailure errMsg then
    "Turbo upload failed due to service limits. Files under 100KB are typically free. For larger files or high volume, visit https://turbo.ardrive.io. Details: "
      ++ errMsg
  else "Arweave upload failed: " ++ errMsg

/-- src/core/arweave-client.ts: ArweaveClient.add, with the underlying
Turbo upload outcome passed in (ok carries the transaction id, error the
underlying failure message). -/
def arweaveAdd (upload : Except String String) : Except String String :=
  match upload with
  | Except.ok id => Except.ok id
  | Except.error e => Except.error (arweaveAddErrorMessage e)

/-- The payload handed to turbo.upload: the JSON document and the optional
tag list (dataItemOpts is spread in only when tags is not undefined). -/
structure UploadRequest where
  data : List (String × JVal)
  tags : Option (List (String × String))

/-- src/core/arweave-client.ts: ArweaveClient.addRegistrationFile.  Tags
are generated only when the chainId argument is truthy (chainId ? ... :
undefined); otherwise the upload carries no tags at all. -/
def addRegistrationFile (registrationFile : RegistrationFile) (chainId : Option Nat)
    (identityRegistryAddress : Option String) (now : String) : UploadRequest :=
  { data := formatRegistrationFileForStorage registrationFile chainId identityRegistryAddress,
    tags :=
      if jsTruthyNat chainId then
        some (generateArweaveRegistrationTags registrationFile (chainId.getD 0) now)
      else none }

/-- Modelled from the spec: the per-entity single-writer guard of the
write-triggering registration calls (the field of src/core/agent.ts named
in FIXES-APPLIED-SUMMARY.md; agent.ts itself is not among the sources).
The guard state of one entity instance. -/
inductive GuardState
  | idle
  | writeInProgress
deriving DecidableEq

/-- Modelled from the spec: how one write-triggering call exits. -/
inductive WriteExit
  | success
  | recoverableFailure
  | thrownException
deriving DecidableEq

/-- Modelled from the spec: one complete write-triggering registration call
on an entity whose guard is in state s.  If the guard is already set, the
call fails immediately with the distinguished already-in-progress error and
the in-flight owner keeps the guard; otherwise the guard is set, the body
runs to its exit, and a guaranteed-run cleanup block resets the guard to
idle on every exit path before the outcome (result or rethrown exception)
is surfaced. -/
def registerCall (s : GuardState) (body : WriteExit) : GuardState × Except String WriteExit :=
  if s = GuardState.writeInProgress then
    (s, Except.error "Registration already in progress. Wait for the current registration to complete.")
  else
    (GuardState.idle, Except.ok body)

/-- Whether a tag list carries a tag with the given key. -/
def tagsInclude (tags : List (String × String)) (k : String) : Bool :=
  tags.any (fun t => t.1 == k)

/-- A gateway-fetch assignment where the gateway at position 2 settles
fastest (time 1) with payload B while the gateway at position 0 settles
later (time 10) with payload A; the two remaining gateways reject. -/
def raceDemoFetch : String → Settled := fun u =>
  if u = "https://arweave.net/tx123" then ⟨10, Except.ok "A"⟩
  else if u = "https://ario-gateway.nethermind.dev/tx123" then ⟨1, Except.ok "B"⟩
  else ⟨2, Except.error "HTTP 404"⟩

/-- The concrete record of the spec scenario for the registration tags:
name X, description Y, no endpoints, active, nothing else set. -/
def bareRecord : RegistrationFile :=
  { agentId := none, name := "X", description := "Y", image := none,
    endpoints := [], trustModels := [], owners := [], operators := [],
    active := true, x402support := false, walletAddress := none,
    walletChainId := none, metadataKeys := [], updatedAt := 0 }

/-- A record whose wallet reference carries chain id 0 (a value of the
declared number type that JavaScript treats as falsy). -/
def walletZeroRecord : RegistrationFile :=
  { agentId := none, name := "W", description := "W", image := none,
    endpoints := [], trustModels := [], owners := [], operators := [],
    active := true, x402support := false, walletAddress := some "0xabc",
    walletChainId := some 0, metadataKeys := [], updatedAt := 0 }

/-- A record whose wallet reference carries the non-zero chain id 7. -/
def walletSevenRecord : RegistrationFile :=
  { agentId := none, name := "V", description := "V", image := none,
    endpoints := [], trustModels := [], owners := [], operators := [],
    active := true, x402support := false, walletAddress := some "0xdef",
    walletChainId := some 7, metadataKeys := [], updatedAt := 0 }

/-- A record carrying the two-part identifier form used for the Agent-Id
annotation value. -/
def twoPartIdRecord : RegistrationFile :=
  { agentId := some "11155111:123", name := "N", description := "D", image := none,
    endpoints := [], trustModels := [], owners := [], operators := [],
    active := true, x402support := false, walletAddress := none,
    walletChainId := none, metadataKeys := [], updatedAt := 0 }

/-- A feedback file with score 0, an empty tag1 and a non-empty tag2. -/
def zeroScoreFeedback : FeedbackFile :=
  { score := some 0, tag1 := some "", tag2 := some "helpful",
    capability := none, skill := none }

/- ------------------------------------------------------------------ -/
/- Helper lemmas                                                      -/
/- ------------------------------------------------------------------ -/

lemma findSome?_congr {α β : Type} {f g : α → Option β} :
    ∀ l : List α, (∀ x ∈ l, f x = g x) → l.findSome? f = l.findSome? g := by
  intro l
  induction l with
  | nil => intro _; rfl
  | cons a as ih =>
    intro h
    rw [List.findSome?_cons, List.findSome?_cons, h a (List.mem_cons_self a as),
      ih (fun x hx => h x (List.mem_cons_of_mem a hx))]

lemma findSome?_append_of_forall_none {α β : Type} {f : α → Option β} :
    ∀ (pre l : List α), (∀ x ∈ pre, f x = none) → (pre ++ l).findSome? f = l.findSome? f := by
  intro pre
  induction pre with
  | nil => intro l _; rfl
  | cons a as ih =>
    intro l h
    rw [List.cons_append, List.findSome?_cons, h a (List.mem_cons_self a as),
      ih l (fun x hx => h x (List.mem_cons_of_mem a hx))]

lemma findSome?_eq_none_of_forall_none {α β : Type} {f : α → Option β} :
    ∀ l : List α, (∀ x ∈ l, f x = none) → l.findSome? f = none := by
  intro l
  induction l with
  | nil => intro _; rfl
  | cons a as ih =>
    intro h
    rw [List.findSome?_cons, h a (List.mem_cons_self a as),
      ih (fun x hx => h x (List.mem_cons_of_mem a hx))]

lemma boolToString_eq_true_iff (b : Bool) : boolToString b = "true" ↔ b = true := by
  cases b <;> simp [boolToString]

lemma arweaveGet_valid (txId : String) (fetch : String → Settled)
    (h : ¬ (stripArScheme txId = "" ∨ jsTrim (stripArScheme txId) = "")) :
    arweaveGet txId fetch =
      match ((arweaveUrls (stripArScheme txId)).map fetch).findSome?
          (fun r => r.result.toOption) with
      | some v => (Except.ok v, arweaveUrls (stripArScheme txId))
      | none =>
        (Except.error
          ("Failed to retrieve data from all Arweave gateways. Transaction ID: " ++
            stripArScheme txId),
         arweaveUrls (stripArScheme txId)) := by
  simp only [arweaveGet]
  rw [if_neg h]

lemma string_append_ne_append_of_head_ne {s t : String} (u v : String) {c d : Char}
    (hc : s.data.head? = some c) (hd : t.data.head? = some d) (hne : c ≠ d) :
    s ++ u ≠ t ++ v := by
  intro h
  have h' := congrArg String.data h
  rw [String.data_append, String.data_append] at h'
  cases hs : s.data with
  | nil => rw [hs] at hc; exact Option.noConfusion hc
  | cons a as =>
    cases ht : t.data with
    | nil => rw [ht] at hd; exact Option.noConfusion hd
    | cons b bs =>
      rw [hs, ht, List.cons_append, List.cons_append] at h'
      rw [hs] at hc
      rw [ht] at hd
      simp only [List.head?_cons, Option.some.injEq] at hc hd
      exact hne (by rw [← hc, ← hd]; exact (List.cons.injEq _ _ _ _ ▸ h').1)

lemma tagsInclude_append (l1 l2 : List (String × String)) (k : String) :
    tagsInclude (l1 ++ l2) k = (tagsInclude l1 k || tagsInclude l2 k) := by
  simp [tagsInclude, List.any_append]

lemma tagsInclude_ite (c : Bool) (t : String × String) (k : String) :
    tagsInclude (if c then [t] else []) k = (c && (t.1 == k)) := by
  cases c <;> simp [tagsInclude]

lemma tagsInclude_score (sc : Option Int) (k : String) :
    tagsInclude (match sc with | some n => [("Score", toString n)] | none => []) k =
      (sc.isSome && (("Score" : String) == k)) := by
  cases sc <;> simp [tagsInclude]

lemma length_generateArweaveRegistrationTags (rf : RegistrationFile) (cid : Nat)
    (now : String) :
    (generateArweaveRegistrationTags rf cid now).length =
      11 + (if jsTruthyStr rf.agentId then 1 else 0) := by
  simp only [generateArweaveRegistrationTags, List.length_append]
  cases h : jsTruthyStr rf.agentId <;> simp

/- ------------------------------------------------------------------ -/
/- Claim theorems                                                     -/
/- ------------------------------------------------------------------ -/

/-- C2: a write-triggering registration call made while another
registration on the same entity instance is in flight fails immediately
with the distinguished already-in-progress error rather than queuing or
blocking; the guard is reset on every exit path (success, failure, thrown
exception), so a subsequent call after the first completes is admitted and
the guard never remains stuck set after a call from idle returns or
throws. -/
theorem c2_registration_guard :
    (∀ b, registerCall GuardState.writeInProgress b =
      (GuardState.writeInProgress,
       Except.error
         "Registration already in progress. Wait for the current registration to complete.")) ∧
    (∀ b, (registerCall GuardState.idle b).1 = GuardState.idle) ∧
    (∀ b b', registerCall (registerCall GuardState.idle b).1 b' =
      (GuardState.idle, Except.ok b')) :=
  ⟨fun _ => rfl, fun _ => rfl, fun _ _ => rfl⟩

/-- C3: generateArweaveRegistrationTags returns, in order, the six
non-conditional tags, then Agent-Id exactly when the record carries a
(truthy) identifier, then the capability flags Has-MCP and Has-A2A (true
iff at least one endpoint of that protocol-type exists, regardless of
count), Has-Wallet and Active, and a Timestamp tag last; the record with
name X, description Y, no endpoints and active true, under chain id
11155111 and with no identifier, yields exactly 11 entries and no
Agent-Id. -/
theorem c3_registration_tag_layout (rf : RegistrationFile) (chainId : Nat) (now : String) :
    (generateArweaveRegistrationTags rf chainId now =
      [("Content-Type", "application/json"),
       ("App-Name", "Agent0-v" ++ SDK_VERSION),
       ("Protocol", "ERC-8004"),
       ("Data-Type", "agent-registration"),
       ("Chain-Id", toString chainId),
       ("Schema-Version", "1.0")]
      ++ (if jsTruthyStr rf.agentId then [("Agent-Id", rf.agentId.getD "")] else [])
      ++ [("Has-MCP", boolToString (rf.endpoints.any (fun ep => ep.type == EndpointType.MCP))),
          ("Has-A2A", boolToString (rf.endpoints.any (fun ep => ep.type == EndpointType.A2A))),
          ("Has-Wallet", boolToString (jsTruthyStr rf.walletAddress)),
          ("Active", boolToString rf.active)]
      ++ [("Timestamp", now)]) ∧
    (boolToString (rf.endpoints.any (fun ep => ep.type == EndpointType.MCP)) = "true" ↔
      ∃ ep ∈ rf.endpoints, ep.type = EndpointType.MCP) ∧
    (boolToString (rf.endpoints.any (fun ep => ep.type == EndpointType.A2A)) = "true" ↔
      ∃ ep ∈ rf.endpoints, ep.type = EndpointType.A2A) ∧
    (generateArweaveRegistrationTags rf chainId now).getLast? = some ("Timestamp", now) ∧
    (generateArweaveRegistrationTags bareRecord 11155111 now).length = 11 ∧
    (∀ v, ("Agent-Id", v) ∉ generateArweaveRegistrationTags bareRecord 11155111 now) := by
  refine ⟨?_, ?_, ?_, ?_, ?_, ?_⟩
  · simp [generateArweaveRegistrationTags, List.append_assoc]
  · simp [boolToString_eq_true_iff, List.any_eq_true]
  · simp [boolToString_eq_true_iff, List.any_eq_true]
  · simp only [generateArweaveRegistrationTags]
    exact List.getLast?_concat _
  · simp [length_generateArweaveRegistrationTags, bareRecord, jsTruthyStr]
  · intro v h
    simp [generateArweaveRegistrationTags, bareRecord, jsTruthyStr, boolToString] at h

/-- C7: for two calls with an identical metadata record and identical
chain context, formatRegistrationFileForStorage produces identical output,
and generateArweaveRegistrationTags produces identical output except for
the value of the final Timestamp entry, which carries the wall-clock input
of the call. -/
theorem c7_formatter_determinism (rf : RegistrationFile) (chainId : Option Nat)
    (addr : Option String) (cid : Nat) (now1 now2 : String) :
    formatRegistrationFileForStorage rf chainId addr =
      formatRegistrationFileForStorage rf chainId addr ∧
    (generateArweaveRegistrationTags rf cid now1).dropLast =
      (generateArweaveRegistrationTags rf cid now2).dropLast ∧
    (generateArweaveRegistrationTags rf cid now1).length =
      (generateArweaveRegistrationTags rf cid now2).length ∧
    (generateArweaveRegistrationTags rf cid now1).getLast? = some ("Timestamp", now1) ∧
    (generateArweaveRegistrationTags rf cid now2).getLast? = some ("Timestamp", now2) := by
  refine ⟨rfl, ?_, ?_, ?_, ?_⟩
  · simp only [generateArweaveRegistrationTags]
    rw [List.dropLast_concat, List.dropLast_concat]
  · simp [length_generateArweaveRegistrationTags]
  · simp only [generateArweaveRegistrationTags]
    exact List.getLast?_concat _
  · simp only [generateArweaveRegistrationTags]
    exact List.getLast?_concat _

/-- C1: for a valid identifier, ArweaveClient.get issues one fetch per
configured gateway (in the configured order), its outcome does not depend
on completion times but only on each gateway's settled result, it returns
the payload of the first gateway in gateway-list order whose settled
outcome succeeded, and when every gateway failed it raises a single
aggregated error whose message ends with the identifier. -/
theorem c1_gateway_race (txId : String) (fetch : String → Settled)
    (h : ¬ (stripArScheme txId = "" ∨ jsTrim (stripArScheme txId) = "")) :
    ((arweaveGet txId fetch).2 = arweaveUrls (stripArScheme txId) ∧
      (arweaveUrls (stripArScheme txId)).length = ARWEAVE_GATEWAYS.length) ∧
    (∀ fetch' : String → Settled, (∀ u, (fetch' u).result = (fetch u).result) →
      (arweaveGet txId fetch').1 = (arweaveGet txId fetch).1) ∧
    (∀ pre s post, (arweaveUrls (stripArScheme txId)).map fetch = pre ++ s :: post →
      (∀ p ∈ pre, p.result.toOption = none) → ∀ v, s.result = Except.ok v →
      (arweaveGet txId fetch).1 = Except.ok v) ∧
    ((∀ s ∈ (arweaveUrls (stripArScheme txId)).map fetch, s.result.toOption = none) →
      (arweaveGet txId fetch).1 = Except.error
        ("Failed to retrieve data from all Arweave gateways. Transaction ID: " ++
          stripArScheme txId)) := by
  have hv := arweaveGet_valid txId fetch h
  refine ⟨⟨?_, ?_⟩, ?_, ?_, ?_⟩
  · rw [hv]
    cases hm : ((arweaveUrls (stripArScheme txId)).map fetch).findSome?
        (fun r => r.result.toOption) <;> simp [hm]
  · simp [arweaveUrls]
  · intro fetch' hres
    rw [arweaveGet_valid txId fetch' h, hv]
    have heq : ((arweaveUrls (stripArScheme txId)).map fetch').findSome?
        (fun r => r.result.toOption) =
        ((arweaveUrls (stripArScheme txId)).map fetch).findSome?
          (fun r => r.result.toOption) := by
      rw [List.findSome?_map, List.findSome?_map]
      refine findSome?_congr _ (fun u _ => ?_)
      simp [Function.comp, hres u]
    rw [heq]
  · intro pre s post hdecomp hpre v hok
    rw [hv, hdecomp, findSome?_append_of_forall_none pre _ hpre, List.findSome?_cons]
    have : s.result.toOption = some v := by rw [hok]; rfl
    rw [this]
  · intro hall
    rw [hv, findSome?_eq_none_of_forall_none _ hall]

/-- C1 witness: for transaction id tx123 reached through the ar scheme,
with the gateway at position 2 settling fastest (payload B) and the
gateway at position 0 settling slower (payload A), the resolver returns A,
the payload of the earlier gateway in list order. -/
theorem c1_gateway_race_witness :
    ¬ (stripArScheme "ar://tx123" = "" ∨ jsTrim (stripArScheme "ar://tx123") = "") ∧
    (arweaveGet "ar://tx123" raceDemoFetch).1 = Except.ok "A" := by
  refine ⟨by decide, ?_⟩
  exact (c1_gateway_race "ar://tx123" raceDemoFetch (by decide)).2.2.1 []
    ⟨10, Except.ok "A"⟩
    [⟨2, Except.error "HTTP 404"⟩, ⟨1, Except.ok "B"⟩, ⟨2, Except.error "HTTP 404"⟩]
    (by decide) (by simp) "A" rfl

/-- C4: ArweaveClient.get strips the ar scheme when present before using
the identifier as a path segment, and an identifier that is empty or
whitespace-only after stripping (the bare scheme string included) is
rejected with the invalid-identifier error before any network call is
issued (the fetch trace stays empty and the outcome does not depend on the
fetch function); a valid identifier is fetched as a path segment of every
configured gateway. -/
theorem c4_identifier_normalization :
    (∀ txId, strStartsWith txId "ar://" = true →
      stripArScheme txId = String.mk (txId.data.drop 5)) ∧
    (∀ txId, strStartsWith txId "ar://" = false → stripArScheme txId = txId) ∧
    (∀ txId (fetch : String → Settled),
      stripArScheme txId = "" ∨ jsTrim (stripArScheme txId) = "" →
      arweaveGet txId fetch = (Except.error "Invalid transaction ID: empty or undefined", [])) ∧
    (∀ fetch : String → Settled,
      arweaveGet "ar://" fetch =
        (Except.error "Invalid transaction ID: empty or undefined", [])) ∧
    (∀ txId (fetch : String → Settled),
      ¬ (stripArScheme txId = "" ∨ jsTrim (stripArScheme txId) = "") →
      (arweaveGet txId fetch).2 = arweaveUrls (stripArScheme txId)) := by
  refine ⟨?_, ?_, ?_, ?_, ?_⟩
  · intro txId h; simp [stripArScheme, h]
  · intro txId h; simp [stripArScheme, h]
  · intro txId fetch h
    simp only [arweaveGet]
    rw [if_pos h]
  · intro fetch
    simp only [arweaveGet]
    rw [if_pos (Or.inl (by decide : stripArScheme "ar://" = ""))]
  · intro txId fetch h
    rw [arweaveGet_valid txId fetch h]
    cases hm : ((arweaveUrls (stripArScheme txId)).map fetch).findSome?
        (fun r => r.result.toOption) <;> simp [hm]

/-- C4 witness: the scheme is stripped from ar://abc; the bare scheme
string and a whitespace-only identifier are both rejected with the
invalid-identifier error and an empty fetch trace, whatever the
gateways would have answered. -/
theorem c4_identifier_normalization_witness :
    strStartsWith "ar://abc" "ar://" = true ∧
    stripArScheme "ar://abc" = "abc" ∧
    arweaveGet "ar://" (fun _ => ⟨0, Except.error "HTTP 404"⟩) =
      (Except.error "Invalid transaction ID: empty or undefined", []) ∧
    arweaveGet "ar://  " (fun _ => ⟨0, Except.ok "payload"⟩) =
      (Except.error "Invalid transaction ID: empty or undefined", []) := by
  refine ⟨by decide, ?_, ?_, ?_⟩
  · exact (c4_identifier_normalization.1 "ar://abc" (by decide)).trans (by decide)
  · exact c4_identifier_normalization.2.2.2.1 _
  · exact c4_identifier_normalization.2.2.1 "ar://  " _ (Or.inr (by decide))

/-- C5: an upload failure whose underlying message marks a quota or
balance rejection is re-raised with the distinguished service-limits
message carrying the remediation hint, which is never equal to a generic
upload-failure message; every other failure is re-raised as the generic
upload error; a successful upload passes the transaction id through. -/
theorem c5_quota_error_distinguished (e : String) :
    (isQuotaFailure e = true →
      (∃ pre post, arweaveAddErrorMessage e =
        pre ++ "visit https://turbo.ardrive.io" ++ post) ∧
      arweaveAddErrorMessage e ≠ "Arweave upload failed: " ++ e) ∧
    (isQuotaFailure e = false →
      arweaveAddErrorMessage e = "Arweave upload failed: " ++ e) ∧
    (∀ e', isQuotaFailure e = true → isQuotaFailure e' = false →
      arweaveAddErrorMessage e ≠ arweaveAddErrorMessage e') ∧
    arweaveAdd (Except.error e) = Except.error (arweaveAddErrorMessage e) ∧
    (∀ id, arweaveAdd (Except.ok id) = Except.ok id) := by
  refine ⟨?_, ?_, ?_, rfl, fun _ => rfl⟩
  · intro hq
    have hmsg : arweaveAddErrorMessage e =
        "Turbo upload failed due to service limits. Files under 100KB are typically free. For larger files or high volume, visit https://turbo.ardrive.io. Details: "
          ++ e := by
      simp [arweaveAddErrorMessage, hq]
    constructor
    · refine ⟨"Turbo upload failed due to service limits. Files under 100KB are typically free. For larger files or high volume, ",
        ". Details: " ++ e, ?_⟩
      rw [hmsg, ← String.append_assoc]
      congr 1
    · rw [hmsg]
      exact string_append_ne_append_of_head_ne e e (by decide) (by decide)
        (by decide : ('T' : Char) ≠ 'A')
  · intro hq
    simp [arweaveAddErrorMessage, hq]
  · intro e' hq hq'
    have hmsg : arweaveAddErrorMessage e =
        "Turbo upload failed due to service limits. Files under 100KB are typically free. For larger files or high volume, visit https://turbo.ardrive.io. Details: "
          ++ e := by
      simp [arweaveAddErrorMessage, hq]
    have hmsg' : arweaveAddErrorMessage e' = "Arweave upload failed: " ++ e' := by
      simp [arweaveAddErrorMessage, hq']
    rw [hmsg, hmsg']
    exact string_append_ne_append_of_head_ne e e' (by decide) (by decide)
      (by decide : ('T' : Char) ≠ 'A')

/-- C5 witness: the message insufficient funds is classified as a quota
failure and produces a message distinct from the generic one produced for
HTTP 503, which is classified as a generic upload failure. -/
theorem c5_quota_error_distinguished_witness :
    isQuotaFailure "insufficient funds" = true ∧
    isQuotaFailure "HTTP 503" = false ∧
    arweaveAddErrorMessage "insufficient funds" ≠ arweaveAddErrorMessage "HTTP 503" ∧
    arweaveAddErrorMessage "HTTP 503" = "Arweave upload failed: " ++ "HTTP 503" := by
  refine ⟨by decide, by decide, ?_, ?_⟩
  · exact (c5_quota_error_distinguished "insufficient funds").2.2.1 "HTTP 503"
      (by decide) (by decide)
  · exact (c5_quota_error_distinguished "HTTP 503").2.1 (by decide)

/-- C6 counterexample: a record whose wallet reference carries the chain
id 0 (present, but falsy in JavaScript): with chain context 5 the
synthesized endpoint uses 5, not the wallet chain id 0 as the claim
states. -/
theorem c6_wallet_chain_zero_counterexample :
    walletZeroRecord.walletChainId = some 0 ∧
    erc8004Endpoints walletZeroRecord (some 5) = [agentWalletDict 5 "0xabc"] ∧
    erc8004Endpoints walletZeroRecord (some 5) ≠ [agentWalletDict 0 "0xabc"] := by
  refine ⟨rfl, rfl, ?_⟩
  intro h
  have h5 : ([agentWalletDict 5 "0xabc"] : List (List (String × JVal))) =
      [agentWalletDict 0 "0xabc"] :=
    (rfl : erc8004Endpoints walletZeroRecord (some 5) = [agentWalletDict 5 "0xabc"]).symm.trans h
  have e5 : ("eip155:" ++ toString (5 : Nat) ++ ":" ++ "0xabc") = "eip155:5:0xabc" := by decide
  have e0 : ("eip155:" ++ toString (0 : Nat) ++ ":" ++ "0xabc") = "eip155:0:0xabc" := by decide
  simp [agentWalletDict, e5, e0] at h5

/-- C6 (amended): for every record with a truthy wallet reference, a
synthesized agentWallet endpoint with value eip155 colon chain colon
address is appended after all own endpoints of the record, where the chain
component is the wallet chain id of the record when present and non-zero,
else the supplied chain context when present and non-zero, else the fixed
fallback 1; without a truthy wallet reference nothing is appended. -/
theorem c6_wallet_endpoint (rf : RegistrationFile) (chainId : Option Nat) :
    (jsTruthyStr rf.walletAddress = false →
      erc8004Endpoints rf chainId = endpointDicts rf) ∧
    (∀ addr, rf.walletAddress = some addr → addr ≠ "" →
      ((∀ w, rf.walletChainId = some w → w ≠ 0 →
        erc8004Endpoints rf chainId = endpointDicts rf ++ [agentWalletDict w addr]) ∧
       (jsTruthyNat rf.walletChainId = false → ∀ n, chainId = some n → n ≠ 0 →
        erc8004Endpoints rf chainId = endpointDicts rf ++ [agentWalletDict n addr]) ∧
       (jsTruthyNat rf.walletChainId = false → jsTruthyNat chainId = false →
        erc8004Endpoints rf chainId = endpointDicts rf ++ [agentWalletDict 1 addr]))) := by
  constructor
  · intro hfalse
    simp [erc8004Endpoints, hfalse]
  · intro addr haddr hne
    have htr : jsTruthyStr rf.walletAddress = true := by
      simp [jsTruthyStr, haddr, hne]
    have hget : rf.walletAddress.getD "" = addr := by rw [haddr]; rfl
    refine ⟨?_, ?_, ?_⟩
    · intro w hw hw0
      have hwt : jsTruthyNat rf.walletChainId = true := by
        simp [jsTruthyNat, hw, hw0]
      have hwget : rf.walletChainId.getD 0 = w := by rw [hw]; rfl
      simp [erc8004Endpoints, htr, hwt, hwget, hget]
    · intro hwf n hn hn0
      have hct : jsTruthyNat chainId = true := by
        simp [jsTruthyNat, hn, hn0]
      have hcget : chainId.getD 0 = n := by rw [hn]; rfl
      simp [erc8004Endpoints, htr, hwf, hct, hcget, hget]
    · intro hwf hcf
      simp [erc8004Endpoints, htr, hwf, hcf, hget]

/-- C6 witness: a record with wallet address 0xdef and wallet chain id 7
and no supplied chain context yields exactly the synthesized agentWallet
endpoint with chain component 7. -/
theorem c6_wallet_endpoint_witness :
    walletSevenRecord.walletChainId = some 7 ∧
    erc8004Endpoints walletSevenRecord none = [agentWalletDict 7 "0xdef"] := by
  refine ⟨rfl, ?_⟩
  have h := ((c6_wallet_endpoint walletSevenRecord none).2 "0xdef" rfl
    (by decide)).1 7 rfl (by decide)
  simpa [endpointDicts, walletSevenRecord] using h

/-- C8: for every record with a truthy identifier, the registrations entry
carries the numeric agentId obtained by parseInt on the third
colon-separated field of the identifier, together with the synthesized
registry reference, and this entry reaches the stored document; when the
identifier has fewer than three colon-separated fields that field is
undefined and the emitted agentId is NaN. -/
theorem c8_registrations_agent_id (rf : RegistrationFile) (chainId : Option Nat)
    (addr : Option String) (aid : String) (h1 : rf.agentId = some aid) (h2 : aid ≠ "") :
    erc8004Registrations rf chainId addr =
      [JVal.obj [("agentId", JVal.num (jsParseInt ((jsSplit aid ':').get? 2))),
        ("agentRegistry", JVal.str
          (if jsTruthyNat chainId && jsTruthyStr addr then
            "eip155:" ++ toString (chainId.getD 0) ++ ":" ++ addr.getD ""
          else "eip155:1:\x7bidentityRegistry\x7d"))]] ∧
    ("registrations", JVal.arr (erc8004Registrations rf chainId addr)) ∈
      formatRegistrationFileForStorage rf chainId addr ∧
    ((jsSplit aid ':').length ≤ 2 → jsParseInt ((jsSplit aid ':').get? 2) = none) := by
  have htr : jsTruthyStr rf.agentId = true := by simp [jsTruthyStr, h1, h2]
  have hget : rf.agentId.getD "" = aid := by rw [h1]; rfl
  have hreg : erc8004Registrations rf chainId addr =
      [JVal.obj [("agentId", JVal.num (jsParseInt ((jsSplit aid ':').get? 2))),
        ("agentRegistry", JVal.str
          (if jsTruthyNat chainId && jsTruthyStr addr then
            "eip155:" ++ toString (chainId.getD 0) ++ ":" ++ addr.getD ""
          else "eip155:1:\x7bidentityRegistry\x7d"))]] := by
    simp [erc8004Registrations, htr, hget]
  refine ⟨hreg, ?_, ?_⟩
  · simp only [formatRegistrationFileForStorage, hreg]
    simp [List.mem_append]
  · intro hlen
    have : (jsSplit aid ':').get? 2 = none := List.get?_eq_none.mpr hlen
    rw [this]
    rfl

/-- C8 witness: the two-part identifier 11155111:123 has no third
colon-separated field, and the emitted registrations entry carries the
NaN agentId. -/
theorem c8_registrations_agent_id_witness :
    (jsSplit "11155111:123" ':').length ≤ 2 ∧
    jsParseInt ((jsSplit "11155111:123" ':').get? 2) = none ∧
    erc8004Registrations twoPartIdRecord none none =
      [JVal.obj [("agentId", JVal.num none),
        ("agentRegistry", JVal.str "eip155:1:\x7bidentityRegistry\x7d")]] := by
  have h := c8_registrations_agent_id twoPartIdRecord none none "11155111:123" rfl (by decide)
  have hnan : jsParseInt ((jsSplit "11155111:123" ':').get? 2) = none := h.2.2 (by decide)
  refine ⟨by decide, hnan, ?_⟩
  rw [h.1, hnan]
  rfl

/-- C9 counterexample: a chain id argument of 0 is supplied, yet the
document is uploaded with no tags, refuting tags-iff-argument-supplied as
stated. -/
theorem c9_zero_chain_counterexample :
    (some 0 : Option Nat) ≠ none ∧
    (addRegistrationFile bareRecord (some 0) none "2025-01-01T00:00:00.000Z").tags = none :=
  ⟨by decide, rfl⟩

/-- C9 (amended): addRegistrationFile attaches annotations iff a truthy
(non-zero) chain id argument is supplied; when the chain id is absent or
zero, the upload carries no tags at all, and in no case does it carry the
essential tag set of generateEssentialTags, which this path never
invokes. -/
theorem c9_tags_iff_truthy_chain (rf : RegistrationFile) (chainId : Option Nat)
    (addr : Option String) (now : String) :
    ((addRegistrationFile rf chainId addr now).tags =
      if jsTruthyNat chainId then
        some (generateArweaveRegistrationTags rf (chainId.getD 0) now)
      else none) ∧
    (jsTruthyNat chainId = false → (addRegistrationFile rf chainId addr now).tags = none) ∧
    (chainId = none → (addRegistrationFile rf chainId addr now).tags = none) ∧
    (∀ tl, (addRegistrationFile rf chainId addr now).tags = some tl →
      tl ≠ generateEssentialTags) ∧
    (addRegistrationFile rf chainId addr now).data =
      formatRegistrationFileForStorage rf chainId addr := by
  refine ⟨rfl, ?_, ?_, ?_, rfl⟩
  · intro hf
    simp [addRegistrationFile, hf]
  · intro hnone
    simp [addRegistrationFile, hnone, jsTruthyNat]
  · intro tl htl
    cases hc : jsTruthyNat chainId with
    | false => simp [addRegistrationFile, hc] at htl
    | true =>
      simp only [addRegistrationFile, hc, if_true, Option.some.injEq] at htl
      intro habs
      rw [← htl] at habs
      have hlen := congrArg List.length habs
      rw [length_generateArweaveRegistrationTags] at hlen
      have h3 : generateEssentialTags.length = 3 := rfl
      rw [h3] at hlen
      cases hfi : jsTruthyStr rf.agentId <;> rw [hfi] at hlen <;> simp at hlen

/-- C9 witness: with no chain id argument the upload carries no tags. -/
theorem c9_tags_iff_truthy_chain_witness :
    jsTruthyNat (none : Option Nat) = false ∧
    (addRegistrationFile bareRecord none none "2025-01-01T00:00:00.000Z").tags = none :=
  ⟨rfl, (c9_tags_iff_truthy_chain bareRecord none none "2025-01-01T00:00:00.000Z").2.1 rfl⟩

/-- C10: generateArweaveFeedbackTags includes a Score tag iff the score
field is a number, so score 0 yields the Score tag with value 0, while
Tag1, Tag2, Capability and Skill are each included iff the corresponding
field is a truthy (non-empty) string, an empty string being omitted, and a
Timestamp tag is always appended last. -/
theorem c10_feedback_tag_conditions (f : FeedbackFile) (cid : Nat)
    (agentId clientAddress : Option String) (now : String) :
    (tagsInclude (generateArweaveFeedbackTags f cid agentId clientAddress now) "Score" =
      f.score.isSome) ∧
    (f.score = some 0 →
      ("Score", "0") ∈ generateArweaveFeedbackTags f cid agentId clientAddress now) ∧
    (tagsInclude (generateArweaveFeedbackTags f cid agentId clientAddress now) "Tag1" =
      jsTruthyStr f.tag1) ∧
    (f.tag1 = some "" →
      tagsInclude (generateArweaveFeedbackTags f cid agentId clientAddress now) "Tag1" =
        false) ∧
    (tagsInclude (generateArweaveFeedbackTags f cid agentId clientAddress now) "Tag2" =
      jsTruthyStr f.tag2) ∧
    (tagsInclude (generateArweaveFeedbackTags f cid agentId clientAddress now) "Capability" =
      jsTruthyStr f.capability) ∧
    (tagsInclude (generateArweaveFeedbackTags f cid agentId clientAddress now) "Skill" =
      jsTruthyStr f.skill) ∧
    (generateArweaveFeedbackTags f cid agentId clientAddress now).getLast? =
      some ("Timestamp", now) := by
  have hscore0 : f.score = some 0 →
      ("Score", "0") ∈ generateArweaveFeedbackTags f cid agentId clientAddress now := by
    intro hs
    have h0 : toString (0 : Int) = "0" := by decide
    simp [generateArweaveFeedbackTags, hs, h0, List.mem_append]
  refine ⟨?_, hscore0, ?_, ?_, ?_, ?_, ?_, ?_⟩
  · simp only [generateArweaveFeedbackTags, tagsInclude_append, tagsInclude_ite,
      tagsInclude_score]
    simp [tagsInclude]
  · simp only [generateArweaveFeedbackTags, tagsInclude_append, tagsInclude_ite,
      tagsInclude_score]
    simp [tagsInclude]
  · intro h1
    simp only [generateArweaveFeedbackTags, tagsInclude_append, tagsInclude_ite,
      tagsInclude_score]
    simp [tagsInclude, jsTruthyStr, h1]
  · simp only [generateArweaveFeedbackTags, tagsInclude_append, tagsInclude_ite,
      tagsInclude_score]
    simp [tagsInclude]
  · simp only [generateArweaveFeedbackTags, tagsInclude_append, tagsInclude_ite,
      tagsInclude_score]
    simp [tagsInclude]
  · simp only [generateArweaveFeedbackTags, tagsInclude_append, tagsInclude_ite,
      tagsInclude_score]
    simp [tagsInclude]
  · simp only [generateArweaveFeedbackTags]
    exact List.getLast?_concat _

/-- C10 witness: a feedback file with score 0, empty tag1 and non-empty
tag2 yields the Score tag with value 0 and no Tag1 tag. -/
theorem c10_feedback_tag_conditions_witness :
    zeroScoreFeedback.score = some 0 ∧
    ("Score", "0") ∈ generateArweaveFeedbackTags zeroScoreFeedback 1 none none "T" ∧
    tagsInclude (generateArweaveFeedbackTags zeroScoreFeedback 1 none none "T") "Tag1" =
      false := by
  have h := c10_feedback_tag_conditions zeroScoreFeedback 1 none none "T"
  exact ⟨rfl, h.2.1 rfl, h.2.2.2.1 rfl⟩

/-- C2 witness: a call while a write is in flight fails with the
already-in-progress error, and a call after a completed (throwing) call is
admitted. -/
theorem c2_registration_guard_witness :
    registerCall GuardState.writeInProgress WriteExit.success =
      (GuardState.writeInProgress,
       Except.error
         "Registration already in progress. Wait for the current registration to complete.") ∧
    registerCall (registerCall GuardState.idle WriteExit.thrownException).1 WriteExit.success =
      (GuardState.idle, Except.ok WriteExit.success) :=
  ⟨c2_registration_guard.1 WriteExit.success,
   c2_registration_guard.2.2 WriteExit.thrownException WriteExit.success⟩

/-- C3 witness: the spec scenario record yields 11 tags and no Agent-Id. -/
theorem c3_registration_tag_layout_witness :
    (generateArweaveRegistrationTags bareRecord 11155111 "2025-01-01T00:00:00.000Z").length =
      11 ∧
    ("Agent-Id", "11155111:1") ∉
      generateArweaveRegistrationTags bareRecord 11155111 "2025-01-01T00:00:00.000Z" :=
  ⟨(c3_registration_tag_layout bareRecord 11155111 "2025-01-01T00:00:00.000Z").2.2.2.2.1,
   (c3_registration_tag_layout bareRecord 11155111 "2025-01-01T00:00:00.000Z").2.2.2.2.2
     "11155111:1"⟩

/-- C7 witness: two calls differing only in the wall-clock input agree on
everything but the final Timestamp value. -/
theorem c7_formatter_determinism_witness :
    (generateArweaveRegistrationTags bareRecord 1 "A").dropLast =
      (generateArweaveRegistrationTags bareRecord 1 "B").dropLast ∧
    (generateArweaveRegistrationTags bareRecord 1 "A").getLast? = some ("Timestamp", "A") :=
  ⟨(c7_formatter_determinism bareRecord none none 1 "A" "B").2.1,
   (c7_formatter_determinism bareRecord none none 1 "A" "B").2.2.2.1⟩

end Agent0
